import Mathlib

/-
Shallow embedding of the paint-backend contact service (src/index.js and the
logging variant of the same server).  The embedding covers the submission
pipeline of POST /api/contact (upfront checks, save with fallback), the
GET /api/contacts listing, the catch branches, the error-handling middleware,
the log-redaction of the request body, and the mongoose contact schema's
service enumeration.  Machine integers (millisecond timestamps) are modelled
as Nat; the per-request environment carries the mongoose connection
readyState, the outcome of the primary-store operation if invoked, and the
wall clock reading.
-/

/-- One stored contact submission record, as built by the fallback branch of
the handler or returned by the primary store.  `submittedAt` is a millisecond
timestamp. -/
structure ContactRecord where
  _id : String
  name : String
  email : String
  phone : Option String
  service : String
  message : String
  submittedAt : Nat
  status : String
deriving DecidableEq

/-- The JSON request body of POST /api/contact: each destructured field is
either absent (`none`) or a string. -/
structure RequestBody where
  name : Option String
  email : Option String
  phone : Option String
  service : Option String
  message : Option String
deriving DecidableEq

/-- JS truthiness of a destructured body field: an absent field and the empty
string are falsy, every other string is truthy. -/
def truthy : Option String → Bool
  | none => false
  | some s => s != ""

/-- The JS regex character class of whitespace, restricted to the ASCII
whitespace characters (space, tab, line feed, vertical tab, form feed,
carriage return). -/
def isSpaceChar (c : Char) : Bool :=
  c == ' ' || c == '\t' || c == '\n' || c == '\x0b' || c == '\x0c' || c == '\r'

/-- The email check of the handler: the anchored regex accepting one or more
characters that are neither whitespace nor an at sign, then an at sign, then
one or more such characters, then a dot, then one or more such characters.
Equivalently: no whitespace anywhere, exactly one at sign, a non-empty local
part, and a dot strictly inside the tail of the domain part. -/
def emailRegexTest (s : String) : Bool :=
  let cs := s.toList
  cs.all (fun c => !(isSpaceChar c)) &&
  cs.count '@' == 1 &&
  !(cs.takeWhile (fun c => c != '@')).isEmpty &&
  (((cs.dropWhile (fun c => c != '@')).drop 1).drop 1).dropLast.contains '.'

/-- An HTTP response of POST /api/contact: status code, the success flag, the
message string, and the optional data object carrying the id and the
submittedAt timestamp. -/
structure ContactResponse where
  status : Nat
  success : Bool
  message : String
  data : Option (String × Nat)
deriving DecidableEq

/-- The per-request environment of POST /api/contact: the mongoose connection
readyState (1 means connected), the outcome of Contact.create if it is
invoked (`none` means the write throws), and the wall clock in milliseconds
(the single clock behind Date.now and new Date in the fallback branch). -/
structure RequestEnv where
  connState : Nat
  primaryCreate : Option ContactRecord
  now : Nat
deriving DecidableEq

/-- The observable outcome of one POST /api/contact request: the response,
the state of the module-level fallbackContacts list afterwards, and whether
Contact.create was invoked. -/
structure PostResult where
  response : ContactResponse
  fallbackContacts : List ContactRecord
  primaryCreateCalled : Bool
deriving DecidableEq

/-- The record built in the catch branch of the save-with-fallback block:
a synthetic id from the decimal rendering of Date.now, the five body fields,
submittedAt set to the current time, status set to new. -/
def fallbackRecord (body : RequestBody) (now : Nat) : ContactRecord :=
  { _id := Nat.repr now
    name := body.name.getD ""
    email := body.email.getD ""
    phone := body.phone
    service := body.service.getD ""
    message := body.message.getD ""
    submittedAt := now
    status := "new" }

/-- The POST /api/contact handler: the upfront required-field check, the
email regex check, then the save-with-fallback block (primary write when the
connection readyState is 1 and the write does not throw, otherwise the
fallback append), then the success envelope. -/
def postApiContact (env : RequestEnv) (fallback : List ContactRecord)
    (body : RequestBody) : PostResult :=
  if !(truthy body.name && truthy body.email && truthy body.service &&
      truthy body.message) then
    { response := { status := 400, success := false,
                    message := "Please fill in all required fields.",
                    data := none }
      fallbackContacts := fallback
      primaryCreateCalled := false }
  else if !(emailRegexTest (body.email.getD "")) then
    { response := { status := 400, success := false,
                    message := "Please enter a valid email address.",
                    data := none }
      fallbackContacts := fallback
      primaryCreateCalled := false }
  else
    match (if env.connState == 1 then env.primaryCreate else none) with
    | some saved =>
      { response := { status := 200, success := true,
                      message := "Thank you for your message! We will get back to you within 24 hours.",
                      data := some (saved._id, saved.submittedAt) }
        fallbackContacts := fallback
        primaryCreateCalled := true }
    | none =>
      let saved := fallbackRecord body env.now
      { response := { status := 200, success := true,
                      message := "Thank you for your message! We will get back to you within 24 hours.",
                      data := some (saved._id, saved.submittedAt) }
        fallbackContacts := fallback ++ [saved]
        primaryCreateCalled := env.connState == 1 }

/-- Both of the four upfront checks of the handler combined: the four
required fields are truthy and the email passes the regex. -/
def passesUpfrontChecks (body : RequestBody) : Bool :=
  truthy body.name && truthy body.email && truthy body.service &&
    truthy body.message && emailRegexTest (body.email.getD "")

/-- The sort from GET /api/contacts on the fallback list: a stable sort with
the comparator subtracting submittedAt values, i.e. descending submittedAt
(JS Array.prototype.sort is stable and sorts in place). -/
def sortDescBySubmittedAt (l : List ContactRecord) : List ContactRecord :=
  l.mergeSort (fun a b => decide (b.submittedAt ≤ a.submittedAt))

/-- The per-request environment of GET /api/contacts: the mongoose connection
readyState and the outcome of Contact.find().sort() if invoked (`none` means
the read throws). -/
structure ContactsEnv where
  connState : Nat
  primaryFind : Option (List ContactRecord)
deriving DecidableEq

/-- The observable outcome of one GET /api/contacts request: the response
fields and the state of the module-level fallbackContacts list afterwards
(the in-place sort mutates it on the fallback-serving paths). -/
structure ContactsResult where
  status : Nat
  success : Bool
  data : List ContactRecord
  source : String
  fallbackContacts : List ContactRecord
deriving DecidableEq

/-- The GET /api/contacts handler: when the readyState is 1 it tries the
primary read and on a throw degrades to the fallback list sorted in place;
when not connected it serves the fallback list sorted in place.  The source
field is computed from the readyState at response time. -/
def getApiContacts (env : ContactsEnv) (fallback : List ContactRecord) :
    ContactsResult :=
  if env.connState == 1 then
    match env.primaryFind with
    | some found =>
      { status := 200, success := true, data := found,
        source := "mongodb", fallbackContacts := fallback }
    | none =>
      let sorted := sortDescBySubmittedAt fallback
      { status := 200, success := true, data := sorted,
        source := "mongodb", fallbackContacts := sorted }
  else
    let sorted := sortDescBySubmittedAt fallback
    { status := 200, success := true, data := sorted,
      source := "fallback", fallbackContacts := sorted }

/-- The catch-all branch of POST /api/contact: the 500 response is fixed and
independent of the caught error. -/
def postContactCatch (_errMessage : String) : ContactResponse :=
  { status := 500, success := false,
    message := "Sorry, there was an error submitting your message. Please try again later.",
    data := none }

/-- The body of the 500 response produced by the error-handling middleware:
the fixed message, plus the error message and the request id only when the
development spread is taken. -/
structure ErrorResponseBody where
  success : Bool
  message : String
  error : Option String
  requestId : Option String
deriving DecidableEq

/-- The error-handling middleware of the logging variant: status 500 with the
fixed message, spreading in the error message and the request id only when
NODE_ENV is the string development. -/
def errorMiddleware (errMessage requestId nodeEnv : String) :
    Nat × ErrorResponseBody :=
  let isDevelopment := nodeEnv == "development"
  (500,
    { success := false
      message := "Something went wrong!"
      error := if isDevelopment then some errMessage else none
      requestId := if isDevelopment then some requestId else none })

/-- The body metadata attached to the submission log entries of the logging
variant: the spread of req.body with the message field replaced by the fixed
redaction marker when truthy and dropped (undefined) otherwise. -/
def redactedLogBody (body : RequestBody) : RequestBody :=
  { body with
    message := if truthy body.message then some "[REDACTED]" else none }

/-- The enumerated service categories of the mongoose contact schema. -/
def serviceEnumValues : List String :=
  ["Interior Painting", "Exterior Painting", "Waterproofing", "POP Work",
   "Tile Installation", "Civil Work", "Carpenter Work"]

/-- Run a sequence of POST /api/contact requests in order, threading the
module-level fallbackContacts list through. -/
def runRequests (fallback : List ContactRecord) :
    List (RequestEnv × RequestBody) → List ContactRecord
  | [] => fallback
  | (env, body) :: rest =>
    runRequests (postApiContact env fallback body).fallbackContacts rest

-- Concrete sample inputs used by the witness and counterexample theorems.
def scenarioBody : RequestBody :=
  { name := some "Jo", email := some "jo@x.com", phone := none,
    service := some "Civil Work", message := some "please call me back soon" }

def scenarioNoMessage : RequestBody := { scenarioBody with message := none }

def scenarioBadEmail : RequestBody := { scenarioBody with email := some "not-an-email" }

def downEnv : RequestEnv := { connState := 0, primaryCreate := none, now := 1700000000000 }

def sameMsEnv : RequestEnv := { connState := 0, primaryCreate := none, now := 1000 }

def msEnv1 : RequestEnv := { connState := 0, primaryCreate := none, now := 1000 }

def msEnv2 : RequestEnv := { connState := 0, primaryCreate := none, now := 2000 }

def readFailEnv : ContactsEnv := { connState := 1, primaryFind := none }

def scenarioPlumbing : RequestBody := { scenarioBody with service := some "Plumbing" }

/-- Accumulating decimal read-back of a digit-character list. -/
def decReadAux (a : Nat) (cs : List Char) : Nat :=
  cs.foldl (fun acc c => 10 * acc + (c.toNat - 48)) a

/-- The number denoted by the accumulator a followed by the decimal digits
of n. -/
def appendDec (a : Nat) (n : Nat) : Nat :=
  if n < 10 then 10 * a + n else 10 * appendDec a (n / 10) + n % 10
termination_by n
decreasing_by exact Nat.div_lt_self (by omega) (by omega)

theorem digitChar_toNat_sub : ∀ m, m < 10 → (Nat.digitChar m).toNat - 48 = m := by
  decide

theorem decReadAux_cons (a : Nat) (c : Char) (cs : List Char) :
    decReadAux a (c :: cs) = decReadAux (10 * a + (c.toNat - 48)) cs := rfl

theorem appendDec_of_lt (a n : Nat) (h : n < 10) : appendDec a n = 10 * a + n := by
  rw [appendDec]; simp [h]

theorem appendDec_of_ge (a n : Nat) (h : ¬ n < 10) :
    appendDec a n = 10 * appendDec a (n / 10) + n % 10 := by
  rw [appendDec]; simp [h]

theorem appendDec_zero (n : Nat) : appendDec 0 n = n := by
  induction n using Nat.strong_induction_on with
  | _ n ih =>
    by_cases h : n < 10
    · rw [appendDec_of_lt _ _ h]; omega
    · rw [appendDec_of_ge _ _ h, ih (n / 10) (Nat.div_lt_self (by omega) (by omega))]
      omega

theorem decReadAux_toDigitsCore (fuel : Nat) :
    ∀ (n a : Nat) (ds : List Char), n < fuel →
      decReadAux a (Nat.toDigitsCore 10 fuel n ds) = decReadAux (appendDec a n) ds := by
  induction fuel with
  | zero => intro n a ds h; omega
  | succ fuel ih =>
    intro n a ds h
    show decReadAux a
        (if n / 10 = 0 then Nat.digitChar (n % 10) :: ds
         else Nat.toDigitsCore 10 fuel (n / 10) (Nat.digitChar (n % 10) :: ds)) = _
    by_cases h10 : n / 10 = 0
    · have hn : n < 10 := by omega
      rw [if_pos h10, decReadAux_cons, digitChar_toNat_sub (n % 10) (by omega),
        appendDec_of_lt _ _ hn, Nat.mod_eq_of_lt hn]
    · have hlt : n / 10 < fuel := by
        have hdiv : n / 10 < n := Nat.div_lt_self (by omega) (by omega)
        omega
      rw [if_neg h10, ih (n / 10) a (Nat.digitChar (n % 10) :: ds) hlt,
        decReadAux_cons, digitChar_toNat_sub (n % 10) (by omega),
        ← appendDec_of_ge a n (by omega)]

theorem decReadAux_repr (n : Nat) : decReadAux 0 (Nat.repr n).data = n := by
  have h : (Nat.repr n).data = Nat.toDigitsCore 10 (n + 1) n [] := rfl
  rw [h, decReadAux_toDigitsCore (n + 1) n 0 [] (by omega)]
  show appendDec 0 n = n
  exact appendDec_zero n

/-- The decimal rendering used for the synthetic fallback id is injective:
distinct clock values give distinct id strings. -/
theorem natRepr_injective {m n : Nat} (h : Nat.repr m = Nat.repr n) : m = n := by
  have hm := decReadAux_repr m
  have hn := decReadAux_repr n
  rw [h, hn] at hm
  exact hm.symm

theorem sortDesc_perm (l : List ContactRecord) :
    (sortDescBySubmittedAt l).Perm l :=
  List.mergeSort_perm l _

theorem sortDesc_sorted (l : List ContactRecord) :
    (sortDescBySubmittedAt l).Pairwise
      (fun a b => b.submittedAt ≤ a.submittedAt) := by
  refine List.Pairwise.imp ?_ (List.sorted_mergeSort ?_ ?_ l)
  · intro a b hab
    simpa using hab
  · intro a b c hab hbc
    simp only [decide_eq_true_eq] at hab hbc ⊢
    omega
  · intro a b
    simp only [Bool.or_eq_true, decide_eq_true_eq]
    omega

theorem sortDesc_mem (r : ContactRecord) (l : List ContactRecord) :
    r ∈ sortDescBySubmittedAt l ↔ r ∈ l :=
  (sortDesc_perm l).mem_iff

theorem passesUpfrontChecks_split (body : RequestBody)
    (hv : passesUpfrontChecks body = true) :
    truthy body.name = true ∧ truthy body.email = true ∧
    truthy body.service = true ∧ truthy body.message = true ∧
    emailRegexTest (body.email.getD "") = true := by
  simp only [passesUpfrontChecks, Bool.and_eq_true] at hv
  exact ⟨hv.1.1.1.1, hv.1.1.1.2, hv.1.1.2, hv.1.2, hv.2⟩

theorem postApiContact_fallback_eq (env : RequestEnv)
    (fallback : List ContactRecord) (body : RequestBody)
    (hv : passesUpfrontChecks body = true)
    (hf : env.connState ≠ 1 ∨ env.primaryCreate = none) :
    postApiContact env fallback body =
      { response := { status := 200, success := true,
                      message := "Thank you for your message! We will get back to you within 24 hours.",
                      data := some (Nat.repr env.now, env.now) }
        fallbackContacts := fallback ++ [fallbackRecord body env.now]
        primaryCreateCalled := env.connState == 1 } := by
  obtain ⟨h1, h2, h3, h4, h5⟩ := passesUpfrontChecks_split body hv
  have hmatch : (if env.connState = 1 then env.primaryCreate else none) = none := by
    rcases hf with hf | hf
    · rw [if_neg hf]
    · split <;> simp [hf]
  simp [postApiContact, h1, h2, h3, h4, h5, hmatch, fallbackRecord]

theorem postApiContact_fallbackContacts_cases (env : RequestEnv)
    (fb : List ContactRecord) (body : RequestBody) :
    (postApiContact env fb body).fallbackContacts = fb ∨
    (postApiContact env fb body).fallbackContacts =
      fb ++ [fallbackRecord body env.now] := by
  unfold postApiContact
  split
  · left; rfl
  · split
    · left; rfl
    · split
      · left; rfl
      · right; rfl

theorem runRequests_fallback_eq :
    ∀ (reqs : List (RequestEnv × RequestBody)) (fb : List ContactRecord),
      (∀ p ∈ reqs, passesUpfrontChecks p.2 = true) →
      (∀ p ∈ reqs, p.1.connState ≠ 1 ∨ p.1.primaryCreate = none) →
      runRequests fb reqs = fb ++ reqs.map (fun p => fallbackRecord p.2 p.1.now) := by
  intro reqs
  induction reqs with
  | nil => intro fb _ _; simp [runRequests]
  | cons p rest ih =>
    intro fb hv hf
    obtain ⟨env, body⟩ := p
    simp only [runRequests]
    rw [postApiContact_fallback_eq env fb body
      (hv (env, body) (List.mem_cons_self _ _))
      (hf (env, body) (List.mem_cons_self _ _))]
    rw [ih _ (fun q hq => hv q (List.mem_cons_of_mem _ hq))
      (fun q hq => hf q (List.mem_cons_of_mem _ hq))]
    simp

/-- Claim C1: for every syntactically valid submission, when the primary store is
unreachable (readyState not 1) or the primary write throws, save does not
raise: the handler still answers 200 success, the record is appended to the
in-process fallback list with the synthetic id, submittedAt set to the
current time and status new, and a subsequent list() (served from the
fallback tier) includes it. -/
theorem save_degrades_to_fallback_C1 (env : RequestEnv) (genv : ContactsEnv)
    (fb : List ContactRecord) (body : RequestBody)
    (hv : passesUpfrontChecks body = true)
    (hdown : env.connState ≠ 1 ∨ env.primaryCreate = none)
    (hgdown : genv.connState ≠ 1) :
    (postApiContact env fb body).response.status = 200 ∧
    (postApiContact env fb body).response.success = true ∧
    (postApiContact env fb body).fallbackContacts
      = fb ++ [fallbackRecord body env.now] ∧
    (fallbackRecord body env.now)._id = Nat.repr env.now ∧
    (fallbackRecord body env.now).submittedAt = env.now ∧
    (fallbackRecord body env.now).status = "new" ∧
    fallbackRecord body env.now ∈
      (getApiContacts genv (postApiContact env fb body).fallbackContacts).data := by
  rw [postApiContact_fallback_eq env fb body hv hdown]
  refine ⟨rfl, rfl, rfl, rfl, rfl, rfl, ?_⟩
  have hc : (genv.connState == 1) = false := by simpa using hgdown
  simp [getApiContacts, hc, sortDesc_mem]

/-- Witness for C1 at the spec's scenario A input with the store down. -/
theorem save_degrades_to_fallback_C1_witness :
    passesUpfrontChecks scenarioBody = true ∧
    downEnv.connState ≠ 1 ∧
    (postApiContact downEnv [] scenarioBody).response.status = 200 ∧
    (postApiContact downEnv [] scenarioBody).response.success = true ∧
    fallbackRecord scenarioBody downEnv.now ∈
      (getApiContacts { connState := 0, primaryFind := none }
        (postApiContact downEnv [] scenarioBody).fallbackContacts).data := by
  have h := save_degrades_to_fallback_C1 downEnv
    { connState := 0, primaryFind := none } [] scenarioBody (by decide)
    (Or.inl (by decide)) (by decide)
  exact ⟨by decide, by decide, h.1, h.2.1, h.2.2.2.2.2.2⟩

/-- Claim C2: a payload missing any of name, email, service, message is answered
400 with the fixed required-fields message, and neither the primary store is
written (Contact.create is not called) nor the fallback list changed. -/
theorem missing_fields_rejected_C2 (env : RequestEnv) (fb : List ContactRecord)
    (body : RequestBody)
    (hmiss : body.name = none ∨ body.email = none ∨ body.service = none ∨
      body.message = none) :
    postApiContact env fb body =
      { response := { status := 400, success := false,
                      message := "Please fill in all required fields.",
                      data := none }
        fallbackContacts := fb
        primaryCreateCalled := false } := by
  have hguard : (truthy body.name && truthy body.email && truthy body.service &&
      truthy body.message) = false := by
    rcases hmiss with h | h | h | h <;> simp [h, truthy]
  simp [postApiContact, hguard]

/-- Witness for C2 at the spec's scenario C input (missing message). -/
theorem missing_fields_rejected_C2_witness :
    scenarioNoMessage.message = none ∧
    postApiContact downEnv [] scenarioNoMessage =
      { response := { status := 400, success := false,
                      message := "Please fill in all required fields.",
                      data := none }
        fallbackContacts := []
        primaryCreateCalled := false } :=
  ⟨rfl, missing_fields_rejected_C2 downEnv [] scenarioNoMessage
    (Or.inr (Or.inr (Or.inr rfl)))⟩

/-- Claim C3: all required fields present but the email fails the handler's regex:
400 with the fixed invalid-email body, and neither store tier is touched. -/
theorem invalid_email_rejected_C3 (env : RequestEnv) (fb : List ContactRecord)
    (body : RequestBody)
    (h1 : truthy body.name = true) (h2 : truthy body.email = true)
    (h3 : truthy body.service = true) (h4 : truthy body.message = true)
    (hbad : emailRegexTest (body.email.getD "") = false) :
    postApiContact env fb body =
      { response := { status := 400, success := false,
                      message := "Please enter a valid email address.",
                      data := none }
        fallbackContacts := fb
        primaryCreateCalled := false } := by
  simp [postApiContact, h1, h2, h3, h4, hbad]

/-- Witness for C3 at the spec's scenario D input (email not-an-email). -/
theorem invalid_email_rejected_C3_witness :
    truthy scenarioBadEmail.email = true ∧
    emailRegexTest (scenarioBadEmail.email.getD "") = false ∧
    postApiContact downEnv [] scenarioBadEmail =
      { response := { status := 400, success := false,
                      message := "Please enter a valid email address.",
                      data := none }
        fallbackContacts := []
        primaryCreateCalled := false } :=
  ⟨by decide, by decide,
    invalid_email_rejected_C3 downEnv [] scenarioBadEmail
      (by decide) (by decide) (by decide) (by decide) (by decide)⟩

/-- Counterexample for C4: two sequential fallback saves within the same
millisecond (Date.now yields 1000 both times) produce two records whose
synthetic ids coincide, so the ids are not pairwise distinct. -/
theorem save_ids_distinct_C4_counterexample :
    (runRequests [] [(sameMsEnv, scenarioBody), (sameMsEnv, scenarioBody)]).length
      = 2 ∧
    ¬ ((runRequests [] [(sameMsEnv, scenarioBody), (sameMsEnv, scenarioBody)]).map
        (fun r => r._id)).Nodup := by
  decide

/-- Amended claim C4: when the wall-clock readings of the N sequential fallback
saves are pairwise distinct, the N appended records have pairwise distinct
ids; and in every case list() returns the fallback records in non-increasing
submittedAt order. -/
theorem save_ids_distinct_C4 (reqs : List (RequestEnv × RequestBody))
    (hv : ∀ p ∈ reqs, passesUpfrontChecks p.2 = true)
    (hf : ∀ p ∈ reqs, p.1.connState ≠ 1 ∨ p.1.primaryCreate = none)
    (hnow : (reqs.map (fun p => p.1.now)).Nodup) :
    (runRequests [] reqs).length = reqs.length ∧
    ((runRequests [] reqs).map (fun r => r._id)).Nodup ∧
    (sortDescBySubmittedAt (runRequests [] reqs)).Pairwise
      (fun a b => b.submittedAt ≤ a.submittedAt) := by
  rw [runRequests_fallback_eq reqs [] hv hf]
  refine ⟨by simp, ?_, sortDesc_sorted _⟩
  simp only [List.nil_append, List.map_map]
  have hcomp : ((fun r : ContactRecord => r._id) ∘
      fun p : RequestEnv × RequestBody => fallbackRecord p.2 p.1.now)
      = (fun p : RequestEnv × RequestBody => Nat.repr p.1.now) := rfl
  rw [hcomp]
  have hsplit : (reqs.map (fun p : RequestEnv × RequestBody => Nat.repr p.1.now))
      = (reqs.map (fun p => p.1.now)).map Nat.repr := by rw [List.map_map]; rfl
  rw [hsplit]
  exact List.Nodup.map (fun a b hab => natRepr_injective hab) hnow

/-- Witness for C4 amended: two saves in distinct milliseconds get distinct
ids. -/
theorem save_ids_distinct_C4_witness :
    ([(msEnv1, scenarioBody), (msEnv2, scenarioBody)].map
        (fun p => p.1.now)).Nodup ∧
    (runRequests [] [(msEnv1, scenarioBody), (msEnv2, scenarioBody)]).length = 2 ∧
    ((runRequests [] [(msEnv1, scenarioBody), (msEnv2, scenarioBody)]).map
        (fun r => r._id)).Nodup := by
  have h := save_ids_distinct_C4 [(msEnv1, scenarioBody), (msEnv2, scenarioBody)]
    (by decide) (by decide) (by decide)
  exact ⟨by decide, h.1, h.2.1⟩

/-- Claim C5: the fallback-store invariant that submittedAt is monotone
non-decreasing with insertion order is preserved by every save, under the
wall-clock assumption that the save's clock reading is not behind the
already-stored records. -/
theorem submittedAt_monotone_C5 (env : RequestEnv) (fb : List ContactRecord)
    (body : RequestBody)
    (hmono : fb.Pairwise (fun a b => a.submittedAt ≤ b.submittedAt))
    (hclock : ∀ r ∈ fb, r.submittedAt ≤ env.now) :
    (postApiContact env fb body).fallbackContacts.Pairwise
      (fun a b => a.submittedAt ≤ b.submittedAt) := by
  rcases postApiContact_fallbackContacts_cases env fb body with h | h
  · rw [h]; exact hmono
  · rw [h, List.pairwise_append]
    refine ⟨hmono, List.pairwise_singleton _ _, ?_⟩
    intro a ha b hb
    simp only [List.mem_singleton] at hb
    subst hb
    exact hclock a ha

/-- Witness for C5: a save at time 30 on top of records at times 10 and 20
keeps the list monotone. -/
theorem submittedAt_monotone_C5_witness :
    ([fallbackRecord scenarioBody 10, fallbackRecord scenarioBody 20].Pairwise
      (fun a b => a.submittedAt ≤ b.submittedAt)) ∧
    (postApiContact { connState := 0, primaryCreate := none, now := 30 }
      [fallbackRecord scenarioBody 10, fallbackRecord scenarioBody 20]
      scenarioBody).fallbackContacts.Pairwise
        (fun a b => a.submittedAt ≤ b.submittedAt) :=
  ⟨by decide, submittedAt_monotone_C5 _ _ _ (by decide) (by decide)⟩

/-- Counterexample for C6: with the connection state connected but the primary
read throwing, the data is served from the fallback list while source is the
string mongodb, which is neither primary nor fallback and does not name the
tier that served the data. -/
theorem contacts_source_C6_counterexample :
    (getApiContacts readFailEnv [fallbackRecord scenarioBody 5]).data
      = [fallbackRecord scenarioBody 5] ∧
    (getApiContacts readFailEnv [fallbackRecord scenarioBody 5]).source
      = "mongodb" ∧
    (getApiContacts readFailEnv [fallbackRecord scenarioBody 5]).source
      ≠ "primary" ∧
    (getApiContacts readFailEnv [fallbackRecord scenarioBody 5]).source
      ≠ "fallback" := by
  constructor
  · show sortDescBySubmittedAt [fallbackRecord scenarioBody 5]
      = [fallbackRecord scenarioBody 5]
    exact List.mergeSort_singleton _
  · exact ⟨rfl, by decide, by decide⟩

/-- Amended claim C6: GET /api/contacts always answers 200 success with a source
string computed from the connection state at response time, mongodb when the
readyState is 1 and fallback otherwise; the source does not track the tier
that served the data, and whenever the store is not connected or the primary
read throws, the data is the fallback list sorted descending. -/
theorem contacts_source_C6 (env : ContactsEnv) (fb : List ContactRecord) :
    (getApiContacts env fb).status = 200 ∧
    (getApiContacts env fb).success = true ∧
    (getApiContacts env fb).source
      = (if env.connState = 1 then "mongodb" else "fallback") ∧
    ((env.connState ≠ 1 ∨ env.primaryFind = none) →
      (getApiContacts env fb).data = sortDescBySubmittedAt fb) ∧
    (∀ found, env.connState = 1 → env.primaryFind = some found →
      (getApiContacts env fb).data = found) := by
  by_cases hc : env.connState = 1
  · have hb : (env.connState == 1) = true := by simp [hc]
    cases hfind : env.primaryFind with
    | some found => simp [getApiContacts, hb, hc, hfind]
    | none => simp [getApiContacts, hb, hc, hfind]
  · have hb : (env.connState == 1) = false := by simp [hc]
    simp [getApiContacts, hb, hc]

/-- Witness for C6 amended at a disconnected environment. -/
theorem contacts_source_C6_witness :
    (getApiContacts { connState := 0, primaryFind := none }
        [fallbackRecord scenarioBody 5]).source = "fallback" ∧
    (getApiContacts { connState := 0, primaryFind := none }
        [fallbackRecord scenarioBody 5]).data
      = sortDescBySubmittedAt [fallbackRecord scenarioBody 5] := by
  have h := contacts_source_C6 { connState := 0, primaryFind := none }
    [fallbackRecord scenarioBody 5]
  exact ⟨by simp [h.2.2.1], h.2.2.2.1 (Or.inl (by decide))⟩

/-- Claim C7: the catch branch of the submission pipeline answers a fixed 500
apology independent of the caught error, and the error-handling middleware
in any non-development configuration exposes neither the error message nor
the request id, only its fixed message. -/
theorem error_responses_opaque_C7 (errMessage requestId nodeEnv : String)
    (hprod : nodeEnv ≠ "development") :
    postContactCatch errMessage =
      { status := 500, success := false,
        message := "Sorry, there was an error submitting your message. Please try again later.",
        data := none } ∧
    (errorMiddleware errMessage requestId nodeEnv).1 = 500 ∧
    (errorMiddleware errMessage requestId nodeEnv).2 =
      { success := false, message := "Something went wrong!",
        error := none, requestId := none } := by
  have hb : (nodeEnv == "development") = false := by simpa using hprod
  exact ⟨rfl, rfl, by simp [errorMiddleware, hb]⟩

/-- Witness for C7 in a production configuration. -/
theorem error_responses_opaque_C7_witness :
    ("production" : String) ≠ "development" ∧
    (errorMiddleware "boom" "r1" "production").2.error = none ∧
    (errorMiddleware "boom" "r1" "production").2.requestId = none := by
  have h := error_responses_opaque_C7 "boom" "r1" "production" (by decide)
  exact ⟨by decide, by rw [h.2.2], by rw [h.2.2]⟩

/-- Claim C8: the submission log entries redact the free-text message: two request
bodies identical except for their non-empty message content produce identical
logged body metadata, and the message is recorded only as the redaction
marker. -/
theorem log_redacts_message_C8 (b1 b2 : RequestBody)
    (hn : b1.name = b2.name) (he : b1.email = b2.email)
    (hp : b1.phone = b2.phone) (hs : b1.service = b2.service)
    (h1 : truthy b1.message = true) (h2 : truthy b2.message = true) :
    redactedLogBody b1 = redactedLogBody b2 ∧
    (redactedLogBody b1).message = some "[REDACTED]" := by
  cases b1
  cases b2
  simp_all [redactedLogBody]

/-- Witness for C8: two scenario bodies differing only in the message text
log identically. -/
theorem log_redacts_message_C8_witness :
    truthy scenarioBody.message = true ∧
    redactedLogBody scenarioBody
      = redactedLogBody { scenarioBody with message := some "my gate is broken" } ∧
    (redactedLogBody scenarioBody).message = some "[REDACTED]" := by
  have h := log_redacts_message_C8 scenarioBody
    { scenarioBody with message := some "my gate is broken" }
    rfl rfl rfl rfl (by decide) (by decide)
  exact ⟨by decide, h.1, h.2⟩

/-- Claim C9: a submission whose service is a non-empty string outside the schema's
enumerated seven categories still passes the handler's upfront checks, and
with the primary store unreachable it is answered 200 and stored in the
fallback tier with that service value. -/
theorem out_of_enum_service_accepted_C9 (env : RequestEnv)
    (fb : List ContactRecord) (body : RequestBody)
    (hv : passesUpfrontChecks body = true)
    (_henum : body.service.getD "" ∉ serviceEnumValues)
    (hdown : env.connState ≠ 1) :
    (postApiContact env fb body).response.status = 200 ∧
    (postApiContact env fb body).response.success = true ∧
    (postApiContact env fb body).fallbackContacts
      = fb ++ [fallbackRecord body env.now] ∧
    (fallbackRecord body env.now).service = body.service.getD "" := by
  rw [postApiContact_fallback_eq env fb body hv (Or.inl hdown)]
  exact ⟨rfl, rfl, rfl, rfl⟩

/-- Witness for C9 at the spec's scenario B input (service Plumbing). -/
theorem out_of_enum_service_accepted_C9_witness :
    passesUpfrontChecks scenarioPlumbing = true ∧
    scenarioPlumbing.service.getD "" ∉ serviceEnumValues ∧
    (postApiContact downEnv [] scenarioPlumbing).response.status = 200 ∧
    (postApiContact downEnv [] scenarioPlumbing).fallbackContacts
      = [fallbackRecord scenarioPlumbing downEnv.now] := by
  have h := out_of_enum_service_accepted_C9 downEnv [] scenarioPlumbing
    (by decide) (by decide) (by decide)
  exact ⟨by decide, by decide, h.1, h.2.2.1⟩

/-- Claim C10: when GET /api/contacts serves the fallback tier (not connected, or
the primary read throws), it sorts the shared fallback list in place: the
stored list afterwards is its descending-submittedAt permutation (same
multiset) and is exactly the data served. -/
theorem contacts_sorts_in_place_C10 (env : ContactsEnv)
    (fb : List ContactRecord)
    (h : env.connState ≠ 1 ∨ env.primaryFind = none) :
    (getApiContacts env fb).fallbackContacts = sortDescBySubmittedAt fb ∧
    (getApiContacts env fb).fallbackContacts.Perm fb ∧
    (getApiContacts env fb).fallbackContacts.Pairwise
      (fun a b => b.submittedAt ≤ a.submittedAt) ∧
    (getApiContacts env fb).data = (getApiContacts env fb).fallbackContacts := by
  have hres : getApiContacts env fb =
      { status := 200, success := true, data := sortDescBySubmittedAt fb,
        source := (if env.connState = 1 then "mongodb" else "fallback"),
        fallbackContacts := sortDescBySubmittedAt fb } := by
    by_cases hc : env.connState = 1
    · have hb : (env.connState == 1) = true := by simp [hc]
      rcases h with h | h
      · exact absurd hc h
      · simp [getApiContacts, hb, hc, h]
    · have hb : (env.connState == 1) = false := by simp [hc]
      simp [getApiContacts, hb, hc]
  rw [hres]
  exact ⟨rfl, sortDesc_perm fb, sortDesc_sorted fb, rfl⟩

/-- Witness for C10: listing an out-of-order fallback list actually changes
the stored list to its sorted permutation. -/
theorem contacts_sorts_in_place_C10_witness :
    (getApiContacts { connState := 0, primaryFind := none }
        [fallbackRecord scenarioBody 5, fallbackRecord scenarioBody 9]).fallbackContacts
      = sortDescBySubmittedAt
          [fallbackRecord scenarioBody 5, fallbackRecord scenarioBody 9] ∧
    sortDescBySubmittedAt
        [fallbackRecord scenarioBody 5, fallbackRecord scenarioBody 9]
      ≠ [fallbackRecord scenarioBody 5, fallbackRecord scenarioBody 9] := by
  have h := contacts_sorts_in_place_C10 { connState := 0, primaryFind := none }
    [fallbackRecord scenarioBody 5, fallbackRecord scenarioBody 9]
    (Or.inl (by decide))
  refine ⟨h.1, fun heq => ?_⟩
  have hs := sortDesc_sorted
    [fallbackRecord scenarioBody 5, fallbackRecord scenarioBody 9]
  rw [heq] at hs
  have hle := List.rel_of_pairwise_cons hs (List.mem_cons_self _ _)
  simp [fallbackRecord] at hle
